import Mathlib

/-!
Verification of the `vector` browser-node RPC surface, the LibERC20
Solidity helper library, and the spec-level channel / router invariants.

The TypeScript class `BrowserNode` (src/modules/browser-node/src/index.ts)
is embedded shallowly: the engine is an oracle mapping an RPC request to
either a typed response or a thrown error, each node method returns the
settled value of its promise (`Except.error` models a rejected promise,
`Except.ok` a promise resolved with a `Result`) together with the list of
engine RPC requests it issued.
-/

/- ### Data model: channel state as seen through the engine responses -/

inductive UpdateType where
  | Setup
  | Deposit
  | Create
  | Resolve
  | Withdraw
deriving DecidableEq, Repr

structure TransferMeta where
  routingId : Option String
deriving DecidableEq, Repr

/-- The fields of `CreateUpdateDetails` that the browser node reads
(`transferId` and `meta?.routingId`). -/
structure UpdateDetails where
  transferId : String
  meta : Option TransferMeta
deriving DecidableEq, Repr

structure ChannelUpdate where
  utype : UpdateType
  nonce : Nat
  details : UpdateDetails
deriving DecidableEq, Repr

structure ChannelState where
  channelAddress : String
  nonce : Nat
  latestUpdate : ChannelUpdate
deriving DecidableEq, Repr

structure TransferState where
  transferId : String
deriving DecidableEq, Repr

/- ### Params of the node-facing operations (the fields the code reads) -/

structure RequestSetupParams where
  aliceIdentifier : String
  chainId : Nat
deriving DecidableEq, Repr

structure DepositParams where
  channelAddress : String
  assetId : String
deriving DecidableEq, Repr

structure RequestCollateralParams where
  channelAddress : String
  assetId : String
deriving DecidableEq, Repr

structure ConditionalTransferParams where
  channelAddress : String
  assetId : String
  amount : Nat
  recipient : String
deriving DecidableEq, Repr

structure ResolveTransferParams where
  channelAddress : String
  transferId : String
deriving DecidableEq, Repr

structure WithdrawParams where
  channelAddress : String
  assetId : String
  amount : Nat
  recipient : String
deriving DecidableEq, Repr

structure DisputeChannelParams where
  channelAddress : String
deriving DecidableEq, Repr

structure DefundChannelParams where
  channelAddress : String
deriving DecidableEq, Repr

structure DisputeTransferParams where
  transferId : String
deriving DecidableEq, Repr

structure DefundTransferParams where
  transferId : String
deriving DecidableEq, Repr

structure CreateNodeParams where
  index : Nat
deriving DecidableEq, Repr

structure GetChannelStateByParticipantsParams where
  counterparty : String
  chainId : Nat
deriving DecidableEq, Repr

/-- The rpc-level params `getStateChannelByParticipants` builds:
`{ alice: params.counterparty, bob: this.publicIdentifier, chainId }`. -/
structure ParticipantsRpcParams where
  alice : String
  bob : String
  chainId : Nat
deriving DecidableEq, Repr

structure GetChannelStateParams where
  channelAddress : String
deriving DecidableEq, Repr

structure GetTransferStateByRoutingIdParams where
  routingId : String
deriving DecidableEq, Repr

structure GetTransferStatesByRoutingIdParams where
  routingId : String
deriving DecidableEq, Repr

structure GetTransferStateParams where
  transferId : String
deriving DecidableEq, Repr

structure GetActiveTransfersParams where
  channelAddress : String
deriving DecidableEq, Repr

/- ### RPC methods, requests and engine responses -/

inductive ChannelRpcMethod where
  | chan_requestSetup
  | chan_deposit
  | chan_requestCollateral
  | chan_createTransfer
  | chan_resolveTransfer
  | chan_withdraw
  | chan_dispute
  | chan_defund
  | chan_disputeTransfer
  | chan_defundTransfer
  | chan_getChannelStateByParticipants
  | chan_getChannelState
  | chan_getChannelStates
  | chan_getTransferStateByRoutingId
  | chan_getTransferStatesByRoutingId
  | chan_getTransferState
  | chan_getActiveTransfers
deriving DecidableEq, Repr

@[reducible] def RpcParamsFor : ChannelRpcMethod → Type
  | .chan_requestSetup => RequestSetupParams
  | .chan_deposit => DepositParams
  | .chan_requestCollateral => RequestCollateralParams
  | .chan_createTransfer => ConditionalTransferParams
  | .chan_resolveTransfer => ResolveTransferParams
  | .chan_withdraw => WithdrawParams
  | .chan_dispute => DisputeChannelParams
  | .chan_defund => DefundChannelParams
  | .chan_disputeTransfer => DisputeTransferParams
  | .chan_defundTransfer => DefundTransferParams
  | .chan_getChannelStateByParticipants => ParticipantsRpcParams
  | .chan_getChannelState => GetChannelStateParams
  | .chan_getChannelStates => Unit
  | .chan_getTransferStateByRoutingId => GetTransferStateByRoutingIdParams
  | .chan_getTransferStatesByRoutingId => GetTransferStatesByRoutingIdParams
  | .chan_getTransferState => GetTransferStateParams
  | .chan_getActiveTransfers => GetActiveTransfersParams

structure SetupRpcResponse where
  channelAddress : String
deriving DecidableEq, Repr

structure WithdrawRpcResponse where
  channel : ChannelState
  transactionHash : String
deriving DecidableEq, Repr

structure TxRpcResponse where
  transactionHash : String
deriving DecidableEq, Repr

/-- The per-method response type of `engine.request<typeof method>`. -/
@[reducible] def EngineResponseFor : ChannelRpcMethod → Type
  | .chan_requestSetup => SetupRpcResponse
  | .chan_deposit => ChannelState
  | .chan_requestCollateral => ChannelState
  | .chan_createTransfer => ChannelState
  | .chan_resolveTransfer => ChannelState
  | .chan_withdraw => WithdrawRpcResponse
  | .chan_dispute => TxRpcResponse
  | .chan_defund => TxRpcResponse
  | .chan_disputeTransfer => TxRpcResponse
  | .chan_defundTransfer => TxRpcResponse
  | .chan_getChannelStateByParticipants => Option ChannelState
  | .chan_getChannelState => Option ChannelState
  | .chan_getChannelStates => List ChannelState
  | .chan_getTransferStateByRoutingId => Option TransferState
  | .chan_getTransferStatesByRoutingId => List TransferState
  | .chan_getTransferState => Option TransferState
  | .chan_getActiveTransfers => List TransferState

structure RpcRequest where
  method : ChannelRpcMethod
  params : RpcParamsFor method

/-- Modelled from the spec: `constructRpcRequest` (vector-utils, not under
src/) builds a JSON-RPC request from a channel rpc method name and its
params; we keep exactly the method tag and the params. -/
@[reducible] def constructRpcRequest (method : ChannelRpcMethod) (params : RpcParamsFor method) :
    RpcRequest :=
  { method := method, params := params }

/- ### Errors, results, the engine oracle and the node -/

inductive NodeErrorReason where
  | MultinodeProhibitted
  | otherReason (message : String)
deriving DecidableEq, Repr

/-- `new NodeError(reason, { params })` as thrown by `createNode`. -/
structure NodeError where
  reason : NodeErrorReason
  ctxParams : CreateNodeParams
deriving DecidableEq, Repr

/-- A thrown JavaScript value: a plain `Error(message)`, a `NodeError`, or
an arbitrary error raised inside the engine. -/
inductive Thrown where
  | jsError (message : String)
  | node (e : NodeError)
  | engineRaised (message : String)
deriving DecidableEq, Repr

/-- `Result.ok` / `Result.fail`, the tagged success-or-typed-failure
envelope of vector-types. -/
inductive Result (α : Type) where
  | ok (value : α)
  | fail (error : Thrown)
deriving DecidableEq, Repr

/-- An event observed by the engine at a (logical) time. -/
structure TimedEvent where
  time : Nat
  payload : String
deriving DecidableEq, Repr

/-- The engine oracle: `request` may return a typed response or throw, and
`events` gives, per event type, the (logically timed) stream of payloads
the engine will observe. -/
structure Engine where
  publicIdentifier : String
  signerAddress : String
  request : (r : RpcRequest) → Except Thrown (EngineResponseFor r.method)
  events : String → List TimedEvent

structure BrowserNode where
  engine : Engine

/-- The settled value of a node method's promise, together with the list
of engine RPC requests the method issued. `Except.error` is a rejected
promise; `Except.ok` is a promise resolved with a `Result`. -/
def NodeCall (α : Type) : Type :=
  Except Thrown (Result α) × List RpcRequest

/-- The common body of every engine-backed browser-node method:
`try { const res = await this.engine.request(rpc); return Result.ok(proj(res)) }
catch (e) { return Result.fail(e) }`, recording the single rpc issued. -/
def callEngine (node : BrowserNode) (rpc : RpcRequest)
    (proj : EngineResponseFor rpc.method → α) : NodeCall α :=
  match node.engine.request rpc with
  | .ok res => (.ok (.ok (proj res)), [rpc])
  | .error e => (.ok (.fail e), [rpc])

/- ### Node response payload types -/

structure DepositResponse where
  channelAddress : String
deriving DecidableEq, Repr

structure RequestCollateralResponse where
  channelAddress : String
deriving DecidableEq, Repr

structure ConditionalTransferResponse where
  channelAddress : String
  transferId : String
  routingId : Option String
deriving DecidableEq, Repr

structure ResolveTransferResponse where
  channelAddress : String
  transferId : String
  routingId : Option String
deriving DecidableEq, Repr

structure WithdrawResponse where
  channelAddress : String
  transferId : String
  transactionHash : String
deriving DecidableEq, Repr

structure DisputeTxResponse where
  txHash : String
deriving DecidableEq, Repr

structure CreateNodeResponse where
  publicIdentifier : String
deriving DecidableEq, Repr

/- ### The BrowserNode methods -/

def BrowserNode.publicIdentifier (node : BrowserNode) : String :=
  node.engine.publicIdentifier

def BrowserNode.signerAddress (node : BrowserNode) : String :=
  node.engine.signerAddress

/-- `createNode` always fails with `MultinodeProhibitted` and issues no
engine request. -/
def BrowserNode.createNode (_node : BrowserNode) (params : CreateNodeParams) :
    NodeCall CreateNodeResponse :=
  (.ok (.fail (.node { reason := .MultinodeProhibitted, ctxParams := params })), [])

def BrowserNode.getStateChannelByParticipants (node : BrowserNode)
    (params : GetChannelStateByParticipantsParams) : NodeCall (Option ChannelState) :=
  callEngine node
    (constructRpcRequest .chan_getChannelStateByParticipants
      { alice := params.counterparty, bob := node.publicIdentifier, chainId := params.chainId })
    (fun res => res)

def BrowserNode.getStateChannel (node : BrowserNode) (params : GetChannelStateParams) :
    NodeCall (Option ChannelState) :=
  callEngine node (constructRpcRequest .chan_getChannelState params) (fun res => res)

def BrowserNode.getStateChannels (node : BrowserNode) : NodeCall (List String) :=
  callEngine node (constructRpcRequest .chan_getChannelStates ())
    (fun res => res.map ChannelState.channelAddress)

def BrowserNode.getTransferByRoutingId (node : BrowserNode)
    (params : GetTransferStateByRoutingIdParams) : NodeCall (Option TransferState) :=
  callEngine node (constructRpcRequest .chan_getTransferStateByRoutingId params)
    (fun res => res)

def BrowserNode.getTransfersByRoutingId (node : BrowserNode)
    (params : GetTransferStatesByRoutingIdParams) : NodeCall (List TransferState) :=
  callEngine node (constructRpcRequest .chan_getTransferStatesByRoutingId params)
    (fun res => res)

def BrowserNode.getTransfer (node : BrowserNode) (params : GetTransferStateParams) :
    NodeCall (Option TransferState) :=
  callEngine node (constructRpcRequest .chan_getTransferState params) (fun res => res)

def BrowserNode.getActiveTransfers (node : BrowserNode) (params : GetActiveTransfersParams) :
    NodeCall (List TransferState) :=
  callEngine node (constructRpcRequest .chan_getActiveTransfers params) (fun res => res)

def BrowserNode.setup (node : BrowserNode) (params : RequestSetupParams) :
    NodeCall SetupRpcResponse :=
  callEngine node (constructRpcRequest .chan_requestSetup params) (fun res => res)

/-- `internalSetup` throws `new Error("Method not implemented")`: its
promise rejects and no engine request is issued. -/
def BrowserNode.internalSetup (_node : BrowserNode) : NodeCall SetupRpcResponse :=
  (.error (.jsError "Method not implemented"), [])

/-- `sendDepositTx` throws `new Error("Method not implemented.")`: its
promise rejects and no engine request is issued. -/
def BrowserNode.sendDepositTx (_node : BrowserNode) : NodeCall TxRpcResponse :=
  (.error (.jsError "Method not implemented."), [])

def BrowserNode.reconcileDeposit (node : BrowserNode) (params : DepositParams) :
    NodeCall DepositResponse :=
  callEngine node (constructRpcRequest .chan_deposit params)
    (fun res => { channelAddress := res.channelAddress })

def BrowserNode.requestCollateral (node : BrowserNode) (params : RequestCollateralParams) :
    NodeCall RequestCollateralResponse :=
  callEngine node (constructRpcRequest .chan_requestCollateral params)
    (fun _res => { channelAddress := params.channelAddress })

def BrowserNode.conditionalTransfer (node : BrowserNode) (params : ConditionalTransferParams) :
    NodeCall ConditionalTransferResponse :=
  callEngine node (constructRpcRequest .chan_createTransfer params)
    (fun res =>
      { channelAddress := res.channelAddress,
        transferId := res.latestUpdate.details.transferId,
        routingId := res.latestUpdate.details.meta.bind TransferMeta.routingId })

def BrowserNode.resolveTransfer (node : BrowserNode) (params : ResolveTransferParams) :
    NodeCall ResolveTransferResponse :=
  callEngine node (constructRpcRequest .chan_resolveTransfer params)
    (fun res =>
      { channelAddress := res.channelAddress,
        transferId := res.latestUpdate.details.transferId,
        routingId := res.latestUpdate.details.meta.bind TransferMeta.routingId })

def BrowserNode.withdraw (node : BrowserNode) (params : WithdrawParams) :
    NodeCall WithdrawResponse :=
  callEngine node (constructRpcRequest .chan_withdraw params)
    (fun res =>
      { channelAddress := res.channel.channelAddress,
        transferId := res.channel.latestUpdate.details.transferId,
        transactionHash := res.transactionHash })

def BrowserNode.sendDisputeChannelTx (node : BrowserNode) (params : DisputeChannelParams) :
    NodeCall DisputeTxResponse :=
  callEngine node (constructRpcRequest .chan_dispute params)
    (fun res => { txHash := res.transactionHash })

def BrowserNode.sendDefundChannelTx (node : BrowserNode) (params : DefundChannelParams) :
    NodeCall DisputeTxResponse :=
  callEngine node (constructRpcRequest .chan_defund params)
    (fun res => { txHash := res.transactionHash })

def BrowserNode.sendDisputeTransferTx (node : BrowserNode) (params : DisputeTransferParams) :
    NodeCall DisputeTxResponse :=
  callEngine node (constructRpcRequest .chan_disputeTransfer params)
    (fun res => { txHash := res.transactionHash })

def BrowserNode.sendDefundTransferTx (node : BrowserNode) (params : DefundTransferParams) :
    NodeCall DisputeTxResponse :=
  callEngine node (constructRpcRequest .chan_defundTransfer params)
    (fun res => { txHash := res.transactionHash })

/-- Modelled from the spec: the engine's `waitFor` (engine internals are
not under src/) performs "filtered waiting with a hard timeout returning
not observed rather than blocking forever": it resolves with the payload
of the first event of the stream that is observed within the timeout and
passes the filter, and with `none` otherwise. -/
def Engine.waitFor (engine : Engine) (event : String) (timeout : Nat)
    (filter : String → Bool) : Option String :=
  (((engine.events event).filter
    (fun e => decide (e.time ≤ timeout) && filter e.payload)).head?).map TimedEvent.payload

/-- `BrowserNode.waitFor` delegates to the engine. -/
def BrowserNode.waitFor (node : BrowserNode) (event : String) (timeout : Nat)
    (filter : String → Bool) : Option String :=
  node.engine.waitFor event timeout filter

/- ### LibERC20.sol (src/modules/contracts/src.sol/lib/LibERC20.sol) -/

/-- The call data passed to the token: the three `abi.encodeWithSignature`
encodings the library builds, or opaque bytes. -/
inductive CallData where
  | approveCall (spender : Nat) (amount : Nat)
  | transferFromCall (sender : Nat) (recipient : Nat) (amount : Nat)
  | transferCall (recipient : Nat) (amount : Nat)
  | raw (bytes : List Nat)
deriving DecidableEq, Repr

/-- A revert: a `require` message, the bubbled return data of a failed
inner call, or an `abi.decode` failure. -/
inductive Revert where
  | message (s : String)
  | bubbled (returnData : List Nat)
  | abiDecodeError
deriving DecidableEq, Repr

/-- The EVM environment the library runs against: which addresses hold
code, the behaviour of a low-level `call` (success flag and return data,
as in Solidity), and the ambient `gasleft()`. -/
structure EvmEnv where
  isContract : Nat → Bool
  call : Nat → CallData → Nat → Bool × List Nat
  gasleft : Nat

/-- The 32-byte ABI word with value `n` in the last byte. -/
def abiWord (n : Nat) : List Nat :=
  List.replicate 31 0 ++ [n]

/-- `abi.decode(returnData, (bool))`: succeeds exactly on the canonical
32-byte encoding of `false` or `true`, reverts otherwise. -/
def abiDecodeBool (returnData : List Nat) : Except Revert Bool :=
  if returnData = abiWord 0 then .ok false
  else if returnData = abiWord 1 then .ok true
  else .error .abiDecodeError

namespace LibUtils

/-- Modelled from the spec: `LibUtils.revertIfCallFailed` is not under
src/; per the spec the ERC20 wrapper is a thin transfer-safety shim, and
this helper reverts (bubbling the inner return data) when the low-level
call failed, and is a no-op when it succeeded. -/
def revertIfCallFailed (success : Bool) (returnData : List Nat) : Except Revert Unit :=
  if success then .ok () else .error (.bubbled returnData)

end LibUtils

namespace LibERC20

/-- `wrapCall(assetId, callData, gas)`: requires `assetId` to be a
contract (`"LibERC20: NO_CODE"`), performs the call, reverts if it
failed, and returns `returnData.length == 0 || abi.decode(returnData, (bool))`. -/
def wrapCallWithGas (env : EvmEnv) (assetId : Nat) (callData : CallData) (gas : Nat) :
    Except Revert Bool :=
  if env.isContract assetId then
    match env.call assetId callData gas with
    | (success, returnData) =>
      match LibUtils.revertIfCallFailed success returnData with
      | .error r => .error r
      | .ok _ => if returnData.length = 0 then .ok true else abiDecodeBool returnData
  else .error (.message "LibERC20: NO_CODE")

/-- `wrapCall(assetId, callData)` forwards `gasleft()`. -/
def wrapCall (env : EvmEnv) (assetId : Nat) (callData : CallData) : Except Revert Bool :=
  wrapCallWithGas env assetId callData env.gasleft

def approve (env : EvmEnv) (assetId spender amount : Nat) : Except Revert Bool :=
  wrapCall env assetId (.approveCall spender amount)

def transferFrom (env : EvmEnv) (assetId sender recipient amount : Nat) :
    Except Revert Bool :=
  wrapCall env assetId (.transferFromCall sender recipient amount)

def transferWithGas (env : EvmEnv) (assetId recipient amount gas : Nat) :
    Except Revert Bool :=
  wrapCallWithGas env assetId (.transferCall recipient amount) gas

def transfer (env : EvmEnv) (assetId recipient amount : Nat) : Except Revert Bool :=
  transferWithGas env assetId recipient amount env.gasleft

end LibERC20

/- ### Spec-modelled channel state machine (nonce discipline) -/

inductive ApplyError where
  | nonceMismatch
deriving DecidableEq, Repr

/-- Modelled from the spec: the channel state machine (spec 4.1) is not
under src/. Applying an update requires its target nonce to equal the
current nonce plus one ("target `nonce` (must equal current nonce + 1)")
and installs the update as `latestUpdate` with the new nonce. -/
def applyUpdate (s : ChannelState) (u : ChannelUpdate) : Except ApplyError ChannelState :=
  if u.nonce = s.nonce + 1 then
    .ok { s with nonce := u.nonce, latestUpdate := u }
  else .error .nonceMismatch

/-- Applies a sequence of updates in order, failing if any is rejected. -/
def applyAll (s : ChannelState) : List ChannelUpdate → Except ApplyError ChannelState
  | [] => .ok s
  | u :: us =>
    match applyUpdate s u with
    | .ok s1 => applyAll s1 us
    | .error e => .error e

/- ### Spec-modelled router forwarding lifecycle (per routingId) -/

inductive LegStatus where
  | missing
  | active
  | resolved
  | cancelled
deriving DecidableEq, Repr

/-- The per-`routingId` state of a routed payment: the inbound leg, the
outbound leg, and whether the router's collateral explicitly absorbed a
loss on expiry. -/
structure RoutedPayment where
  inbound : LegStatus
  outbound : LegStatus
  absorbed : Bool
deriving DecidableEq, Repr

def RoutedPayment.initial : RoutedPayment :=
  { inbound := .missing, outbound := .missing, absorbed := false }

/-- Modelled from the spec: the router forwarding engine (spec 4.3) is not
under src/. The transitions of one routed payment: the inbound transfer is
created; the router forwards it (or fails collateralization and cancels
the inbound leg); the recipient resolves the outbound leg and the router
mirrors the resolution inbound; the outbound leg expires and the router
mirrors the cancellation inbound; or, after paying out on the resolved
outbound leg, the inbound leg expires and the router's collateral
explicitly absorbs the loss. -/
inductive RouterStep : RoutedPayment → RoutedPayment → Prop where
  | createInbound :
      RouterStep { inbound := .missing, outbound := .missing, absorbed := false }
        { inbound := .active, outbound := .missing, absorbed := false }
  | forward :
      RouterStep { inbound := .active, outbound := .missing, absorbed := false }
        { inbound := .active, outbound := .active, absorbed := false }
  | collateralFail :
      RouterStep { inbound := .active, outbound := .missing, absorbed := false }
        { inbound := .cancelled, outbound := .missing, absorbed := false }
  | resolveOutbound :
      RouterStep { inbound := .active, outbound := .active, absorbed := false }
        { inbound := .active, outbound := .resolved, absorbed := false }
  | mirrorResolve :
      RouterStep { inbound := .active, outbound := .resolved, absorbed := false }
        { inbound := .resolved, outbound := .resolved, absorbed := false }
  | outboundExpire :
      RouterStep { inbound := .active, outbound := .active, absorbed := false }
        { inbound := .active, outbound := .cancelled, absorbed := false }
  | mirrorCancel :
      RouterStep { inbound := .active, outbound := .cancelled, absorbed := false }
        { inbound := .cancelled, outbound := .cancelled, absorbed := false }
  | absorb :
      RouterStep { inbound := .active, outbound := .resolved, absorbed := false }
        { inbound := .cancelled, outbound := .resolved, absorbed := true }

/-- A routed-payment state reachable from the initial state. -/
def RouterReachable (s : RoutedPayment) : Prop :=
  Relation.ReflTransGen RouterStep RoutedPayment.initial s

/-- The forwarding-atomicity invariant: the router never pays out on the
outbound leg while the inbound leg is lost (cancelled or never created)
unless its collateral explicitly absorbed the loss, and it never collects
the inbound leg without having paid the outbound leg. -/
def ForwardingConsistent (s : RoutedPayment) : Prop :=
  (¬(s.outbound = .resolved ∧ s.inbound = .cancelled ∧ s.absorbed = false)) ∧
  (¬(s.outbound = .resolved ∧ s.inbound = .missing)) ∧
  (s.inbound = .resolved → s.outbound = .resolved) ∧
  (s.inbound ≠ .active → s.outbound ≠ .active)

/- ### Generic facts about the engine-call pattern -/

theorem callEngine_trace (node : BrowserNode) (rpc : RpcRequest)
    (proj : EngineResponseFor rpc.method → α) :
    (callEngine node rpc proj).2 = [rpc] := by
  unfold callEngine
  cases node.engine.request rpc <;> rfl

theorem callEngine_ok (node : BrowserNode) (rpc : RpcRequest)
    (proj : EngineResponseFor rpc.method → α) (res : EngineResponseFor rpc.method)
    (h : node.engine.request rpc = .ok res) :
    (callEngine node rpc proj).1 = .ok (.ok (proj res)) := by
  unfold callEngine
  rw [h]

theorem callEngine_err (node : BrowserNode) (rpc : RpcRequest)
    (proj : EngineResponseFor rpc.method → α) (e : Thrown)
    (h : node.engine.request rpc = .error e) :
    (callEngine node rpc proj).1 = .ok (.fail e) := by
  unfold callEngine
  rw [h]

theorem callEngine_resolves (node : BrowserNode) (rpc : RpcRequest)
    (proj : EngineResponseFor rpc.method → α) :
    ∃ r, (callEngine node rpc proj).1 = .ok r := by
  unfold callEngine
  cases h : node.engine.request rpc
  case ok res => exact ⟨.ok (proj res), rfl⟩
  case error e => exact ⟨.fail e, rfl⟩

/- ### A concrete engine and node used to instantiate the theorems -/

def sampleDetails : UpdateDetails :=
  { transferId := "0xtid", meta := some { routingId := some "0xrid" } }

def sampleChannel (t : UpdateType) : ChannelState :=
  { channelAddress := "0xchan", nonce := 7,
    latestUpdate := { utype := t, nonce := 7, details := sampleDetails } }

/-- A response of the appropriate type for every rpc method. -/
def okResponse : (m : ChannelRpcMethod) → EngineResponseFor m
  | .chan_requestSetup => { channelAddress := "0xchan" }
  | .chan_deposit => sampleChannel .Deposit
  | .chan_requestCollateral => sampleChannel .Deposit
  | .chan_createTransfer => sampleChannel .Create
  | .chan_resolveTransfer => sampleChannel .Resolve
  | .chan_withdraw => { channel := sampleChannel .Create, transactionHash := "0xhash" }
  | .chan_dispute => { transactionHash := "0xhash" }
  | .chan_defund => { transactionHash := "0xhash" }
  | .chan_disputeTransfer => { transactionHash := "0xhash" }
  | .chan_defundTransfer => { transactionHash := "0xhash" }
  | .chan_getChannelStateByParticipants => some (sampleChannel .Deposit)
  | .chan_getChannelState => some (sampleChannel .Deposit)
  | .chan_getChannelStates => [sampleChannel .Deposit]
  | .chan_getTransferStateByRoutingId => some { transferId := "0xtid" }
  | .chan_getTransferStatesByRoutingId => [{ transferId := "0xtid" }]
  | .chan_getTransferState => some { transferId := "0xtid" }
  | .chan_getActiveTransfers => [{ transferId := "0xtid" }]

/-- An engine that answers every request successfully. -/
def okEngine : Engine :=
  { publicIdentifier := "vectorBobId",
    signerAddress := "0xbob",
    request := fun r => .ok (okResponse r.method),
    events := fun _ => [{ time := 1, payload := "observed" }] }

def node0 : BrowserNode := { engine := okEngine }

def collateralParams0 : RequestCollateralParams :=
  { channelAddress := "0xother", assetId := "0xasset" }

def transferParams0 : ConditionalTransferParams :=
  { channelAddress := "0xchan", assetId := "0xasset", amount := 30, recipient := "vectorCarol" }

def resolveParams0 : ResolveTransferParams :=
  { channelAddress := "0xchan", transferId := "0xtid" }

def setupParams0 : RequestSetupParams :=
  { aliceIdentifier := "vectorAliceId", chainId := 1337 }

/- ### Claim theorems -/

/-- C8: for every input params, `BrowserNode.createNode` returns a failure
`Result` carrying a `NodeError` with reason `MultinodeProhibitted`; it
never succeeds and never issues an engine request. -/
theorem createNode_always_fails_multinode (node : BrowserNode) (params : CreateNodeParams) :
    node.createNode params =
      (.ok (.fail (.node { reason := .MultinodeProhibitted, ctxParams := params })), []) :=
  rfl

/-- C9: every successful `requestCollateral` call resolves with a payload
whose `channelAddress` is exactly the caller's `params.channelAddress`
(the payload has no other field, so no engine-response data appears in it),
whatever response the engine returned. -/
theorem requestCollateral_echoes_caller_params (node : BrowserNode)
    (params : RequestCollateralParams) (res : ChannelState)
    (h : node.engine.request (constructRpcRequest .chan_requestCollateral params) = .ok res) :
    (node.requestCollateral params).1 =
      .ok (.ok { channelAddress := params.channelAddress }) :=
  callEngine_ok node (constructRpcRequest .chan_requestCollateral params) _ res h

/-- C9 witness at a concrete node whose engine succeeds. -/
theorem requestCollateral_echoes_caller_params_witness :
    (node0.requestCollateral collateralParams0).1 =
      .ok (.ok { channelAddress := "0xother" }) :=
  requestCollateral_echoes_caller_params node0 collateralParams0 (sampleChannel .Deposit) rfl

/-- C3: every successful `conditionalTransfer` call resolves with the
`channelAddress` of the updated channel and the `transferId` and
`routingId` taken from the details of that channel's `latestUpdate`. -/
theorem conditionalTransfer_payload_from_latest_update (node : BrowserNode)
    (params : ConditionalTransferParams) (res : ChannelState)
    (h : node.engine.request (constructRpcRequest .chan_createTransfer params) = .ok res) :
    (node.conditionalTransfer params).1 =
      .ok (.ok
        { channelAddress := res.channelAddress,
          transferId := res.latestUpdate.details.transferId,
          routingId := res.latestUpdate.details.meta.bind TransferMeta.routingId }) :=
  callEngine_ok node (constructRpcRequest .chan_createTransfer params) _ res h

/-- C3 witness: the concrete engine answers with a channel whose latest
update is the applied Create update. -/
theorem conditionalTransfer_payload_witness :
    (node0.conditionalTransfer transferParams0).1 =
      .ok (.ok { channelAddress := "0xchan", transferId := "0xtid",
                 routingId := some "0xrid" }) :=
  conditionalTransfer_payload_from_latest_update node0 transferParams0
    (sampleChannel .Create) rfl

/-- C4: every successful `resolveTransfer` call resolves with the
`channelAddress` of the updated channel and the `transferId` and
`routingId` read from the details of the channel's `latestUpdate`, which
after the operation is the applied Resolve update. -/
theorem resolveTransfer_payload_from_latest_update (node : BrowserNode)
    (params : ResolveTransferParams) (res : ChannelState)
    (h : node.engine.request (constructRpcRequest .chan_resolveTransfer params) = .ok res)
    (_hresolve : res.latestUpdate.utype = .Resolve) :
    (node.resolveTransfer params).1 =
      .ok (.ok
        { channelAddress := res.channelAddress,
          transferId := res.latestUpdate.details.transferId,
          routingId := res.latestUpdate.details.meta.bind TransferMeta.routingId }) :=
  callEngine_ok node (constructRpcRequest .chan_resolveTransfer params) _ res h

/-- C4 witness: the concrete engine answers with a channel whose latest
update is a Resolve update. -/
theorem resolveTransfer_payload_witness :
    (node0.resolveTransfer resolveParams0).1 =
      .ok (.ok { channelAddress := "0xchan", transferId := "0xtid",
                 routingId := some "0xrid" }) :=
  resolveTransfer_payload_from_latest_update node0 resolveParams0
    (sampleChannel .Resolve) rfl rfl

/-- C2: each exposed state-changing operation (`setup`, `reconcileDeposit`,
`requestCollateral`, `conditionalTransfer`, `resolveTransfer`, `withdraw`
and the four dispute-submission calls) issues exactly one engine RPC
request, built with the corresponding `ChannelRpcMethod` and the caller's
params, and resolves with `Result.ok` of a projection of the engine's
response on success and with `Result.fail` of the thrown error on
failure. -/
theorem browserNode_rpc_dispatch :
    (∀ (node : BrowserNode) (p : RequestSetupParams),
      (node.setup p).2 = [constructRpcRequest .chan_requestSetup p] ∧
      (∀ res : SetupRpcResponse,
        node.engine.request (constructRpcRequest .chan_requestSetup p) = .ok res →
        (node.setup p).1 = .ok (.ok res)) ∧
      (∀ e : Thrown,
        node.engine.request (constructRpcRequest .chan_requestSetup p) = .error e →
        (node.setup p).1 = .ok (.fail e))) ∧
    (∀ (node : BrowserNode) (p : DepositParams),
      (node.reconcileDeposit p).2 = [constructRpcRequest .chan_deposit p] ∧
      (∀ res : ChannelState,
        node.engine.request (constructRpcRequest .chan_deposit p) = .ok res →
        (node.reconcileDeposit p).1 = .ok (.ok { channelAddress := res.channelAddress })) ∧
      (∀ e : Thrown,
        node.engine.request (constructRpcRequest .chan_deposit p) = .error e →
        (node.reconcileDeposit p).1 = .ok (.fail e))) ∧
    (∀ (node : BrowserNode) (p : RequestCollateralParams),
      (node.requestCollateral p).2 = [constructRpcRequest .chan_requestCollateral p] ∧
      (∀ res : ChannelState,
        node.engine.request (constructRpcRequest .chan_requestCollateral p) = .ok res →
        (node.requestCollateral p).1 = .ok (.ok { channelAddress := p.channelAddress })) ∧
      (∀ e : Thrown,
        node.engine.request (constructRpcRequest .chan_requestCollateral p) = .error e →
        (node.requestCollateral p).1 = .ok (.fail e))) ∧
    (∀ (node : BrowserNode) (p : ConditionalTransferParams),
      (node.conditionalTransfer p).2 = [constructRpcRequest .chan_createTransfer p] ∧
      (∀ res : ChannelState,
        node.engine.request (constructRpcRequest .chan_createTransfer p) = .ok res →
        (node.conditionalTransfer p).1 = .ok (.ok
          { channelAddress := res.channelAddress,
            transferId := res.latestUpdate.details.transferId,
            routingId := res.latestUpdate.details.meta.bind TransferMeta.routingId })) ∧
      (∀ e : Thrown,
        node.engine.request (constructRpcRequest .chan_createTransfer p) = .error e →
        (node.conditionalTransfer p).1 = .ok (.fail e))) ∧
    (∀ (node : BrowserNode) (p : ResolveTransferParams),
      (node.resolveTransfer p).2 = [constructRpcRequest .chan_resolveTransfer p] ∧
      (∀ res : ChannelState,
        node.engine.request (constructRpcRequest .chan_resolveTransfer p) = .ok res →
        (node.resolveTransfer p).1 = .ok (.ok
          { channelAddress := res.channelAddress,
            transferId := res.latestUpdate.details.transferId,
            routingId := res.latestUpdate.details.meta.bind TransferMeta.routingId })) ∧
      (∀ e : Thrown,
        node.engine.request (constructRpcRequest .chan_resolveTransfer p) = .error e →
        (node.resolveTransfer p).1 = .ok (.fail e))) ∧
    (∀ (node : BrowserNode) (p : WithdrawParams),
      (node.withdraw p).2 = [constructRpcRequest .chan_withdraw p] ∧
      (∀ res : WithdrawRpcResponse,
        node.engine.request (constructRpcRequest .chan_withdraw p) = .ok res →
        (node.withdraw p).1 = .ok (.ok
          { channelAddress := res.channel.channelAddress,
            transferId := res.channel.latestUpdate.details.transferId,
            transactionHash := res.transactionHash })) ∧
      (∀ e : Thrown,
        node.engine.request (constructRpcRequest .chan_withdraw p) = .error e →
        (node.withdraw p).1 = .ok (.fail e))) ∧
    (∀ (node : BrowserNode) (p : DisputeChannelParams),
      (node.sendDisputeChannelTx p).2 = [constructRpcRequest .chan_dispute p] ∧
      (∀ res : TxRpcResponse,
        node.engine.request (constructRpcRequest .chan_dispute p) = .ok res →
        (node.sendDisputeChannelTx p).1 = .ok (.ok { txHash := res.transactionHash })) ∧
      (∀ e : Thrown,
        node.engine.request (constructRpcRequest .chan_dispute p) = .error e →
        (node.sendDisputeChannelTx p).1 = .ok (.fail e))) ∧
    (∀ (node : BrowserNode) (p : DefundChannelParams),
      (node.sendDefundChannelTx p).2 = [constructRpcRequest .chan_defund p] ∧
      (∀ res : TxRpcResponse,
        node.engine.request (constructRpcRequest .chan_defund p) = .ok res →
        (node.sendDefundChannelTx p).1 = .ok (.ok { txHash := res.transactionHash })) ∧
      (∀ e : Thrown,
        node.engine.request (constructRpcRequest .chan_defund p) = .error e →
        (node.sendDefundChannelTx p).1 = .ok (.fail e))) ∧
    (∀ (node : BrowserNode) (p : DisputeTransferParams),
      (node.sendDisputeTransferTx p).2 = [constructRpcRequest .chan_disputeTransfer p] ∧
      (∀ res : TxRpcResponse,
        node.engine.request (constructRpcRequest .chan_disputeTransfer p) = .ok res →
        (node.sendDisputeTransferTx p).1 = .ok (.ok { txHash := res.transactionHash })) ∧
      (∀ e : Thrown,
        node.engine.request (constructRpcRequest .chan_disputeTransfer p) = .error e →
        (node.sendDisputeTransferTx p).1 = .ok (.fail e))) ∧
    (∀ (node : BrowserNode) (p : DefundTransferParams),
      (node.sendDefundTransferTx p).2 = [constructRpcRequest .chan_defundTransfer p] ∧
      (∀ res : TxRpcResponse,
        node.engine.request (constructRpcRequest .chan_defundTransfer p) = .ok res →
        (node.sendDefundTransferTx p).1 = .ok (.ok { txHash := res.transactionHash })) ∧
      (∀ e : Thrown,
        node.engine.request (constructRpcRequest .chan_defundTransfer p) = .error e →
        (node.sendDefundTransferTx p).1 = .ok (.fail e))) :=
  ⟨fun node p =>
    ⟨callEngine_trace node (constructRpcRequest .chan_requestSetup p) (fun res => res),
     fun res h => callEngine_ok node (constructRpcRequest .chan_requestSetup p)
       (fun res => res) res h,
     fun e h => callEngine_err node (constructRpcRequest .chan_requestSetup p)
       (fun res => res) e h⟩,
  fun node p =>
    ⟨callEngine_trace node (constructRpcRequest .chan_deposit p)
       (fun res => ({ channelAddress := res.channelAddress } : DepositResponse)),
     fun res h => callEngine_ok node (constructRpcRequest .chan_deposit p)
       (fun res => ({ channelAddress := res.channelAddress } : DepositResponse)) res h,
     fun e h => callEngine_err node (constructRpcRequest .chan_deposit p)
       (fun res => ({ channelAddress := res.channelAddress } : DepositResponse)) e h⟩,
  fun node p =>
    ⟨callEngine_trace node (constructRpcRequest .chan_requestCollateral p)
       (fun _res => ({ channelAddress := p.channelAddress } : RequestCollateralResponse)),
     fun res h => callEngine_ok node (constructRpcRequest .chan_requestCollateral p)
       (fun _res => ({ channelAddress := p.channelAddress } : RequestCollateralResponse)) res h,
     fun e h => callEngine_err node (constructRpcRequest .chan_requestCollateral p)
       (fun _res => ({ channelAddress := p.channelAddress } : RequestCollateralResponse)) e h⟩,
  fun node p =>
    ⟨callEngine_trace node (constructRpcRequest .chan_createTransfer p)
       (fun res => ({ channelAddress := res.channelAddress,
                      transferId := res.latestUpdate.details.transferId,
                      routingId := res.latestUpdate.details.meta.bind TransferMeta.routingId } :
                      ConditionalTransferResponse)),
     fun res h => callEngine_ok node (constructRpcRequest .chan_createTransfer p)
       (fun res => ({ channelAddress := res.channelAddress,
                      transferId := res.latestUpdate.details.transferId,
                      routingId := res.latestUpdate.details.meta.bind TransferMeta.routingId } :
                      ConditionalTransferResponse)) res h,
     fun e h => callEngine_err node (constructRpcRequest .chan_createTransfer p)
       (fun res => ({ channelAddress := res.channelAddress,
                      transferId := res.latestUpdate.details.transferId,
                      routingId := res.latestUpdate.details.meta.bind TransferMeta.routingId } :
                      ConditionalTransferResponse)) e h⟩,
  fun node p =>
    ⟨callEngine_trace node (constructRpcRequest .chan_resolveTransfer p)
       (fun res => ({ channelAddress := res.channelAddress,
                      transferId := res.latestUpdate.details.transferId,
                      routingId := res.latestUpdate.details.meta.bind TransferMeta.routingId } :
                      ResolveTransferResponse)),
     fun res h => callEngine_ok node (constructRpcRequest .chan_resolveTransfer p)
       (fun res => ({ channelAddress := res.channelAddress,
                      transferId := res.latestUpdate.details.transferId,
                      routingId := res.latestUpdate.details.meta.bind TransferMeta.routingId } :
                      ResolveTransferResponse)) res h,
     fun e h => callEngine_err node (constructRpcRequest .chan_resolveTransfer p)
       (fun res => ({ channelAddress := res.channelAddress,
                      transferId := res.latestUpdate.details.transferId,
                      routingId := res.latestUpdate.details.meta.bind TransferMeta.routingId } :
                      ResolveTransferResponse)) e h⟩,
  fun node p =>
    ⟨callEngine_trace node (constructRpcRequest .chan_withdraw p)
       (fun res => ({ channelAddress := res.channel.channelAddress,
                      transferId := res.channel.latestUpdate.details.transferId,
                      transactionHash := res.transactionHash } : WithdrawResponse)),
     fun res h => callEngine_ok node (constructRpcRequest .chan_withdraw p)
       (fun res => ({ channelAddress := res.channel.channelAddress,
                      transferId := res.channel.latestUpdate.details.transferId,
                      transactionHash := res.transactionHash } : WithdrawResponse)) res h,
     fun e h => callEngine_err node (constructRpcRequest .chan_withdraw p)
       (fun res => ({ channelAddress := res.channel.channelAddress,
                      transferId := res.channel.latestUpdate.details.transferId,
                      transactionHash := res.transactionHash } : WithdrawResponse)) e h⟩,
  fun node p =>
    ⟨callEngine_trace node (constructRpcRequest .chan_dispute p)
       (fun res => ({ txHash := res.transactionHash } : DisputeTxResponse)),
     fun res h => callEngine_ok node (constructRpcRequest .chan_dispute p)
       (fun res => ({ txHash := res.transactionHash } : DisputeTxResponse)) res h,
     fun e h => callEngine_err node (constructRpcRequest .chan_dispute p)
       (fun res => ({ txHash := res.transactionHash } : DisputeTxResponse)) e h⟩,
  fun node p =>
    ⟨callEngine_trace node (constructRpcRequest .chan_defund p)
       (fun res => ({ txHash := res.transactionHash } : DisputeTxResponse)),
     fun res h => callEngine_ok node (constructRpcRequest .chan_defund p)
       (fun res => ({ txHash := res.transactionHash } : DisputeTxResponse)) res h,
     fun e h => callEngine_err node (constructRpcRequest .chan_defund p)
       (fun res => ({ txHash := res.transactionHash } : DisputeTxResponse)) e h⟩,
  fun node p =>
    ⟨callEngine_trace node (constructRpcRequest .chan_disputeTransfer p)
       (fun res => ({ txHash := res.transactionHash } : DisputeTxResponse)),
     fun res h => callEngine_ok node (constructRpcRequest .chan_disputeTransfer p)
       (fun res => ({ txHash := res.transactionHash } : DisputeTxResponse)) res h,
     fun e h => callEngine_err node (constructRpcRequest .chan_disputeTransfer p)
       (fun res => ({ txHash := res.transactionHash } : DisputeTxResponse)) e h⟩,
  fun node p =>
    ⟨callEngine_trace node (constructRpcRequest .chan_defundTransfer p)
       (fun res => ({ txHash := res.transactionHash } : DisputeTxResponse)),
     fun res h => callEngine_ok node (constructRpcRequest .chan_defundTransfer p)
       (fun res => ({ txHash := res.transactionHash } : DisputeTxResponse)) res h,
     fun e h => callEngine_err node (constructRpcRequest .chan_defundTransfer p)
       (fun res => ({ txHash := res.transactionHash } : DisputeTxResponse)) e h⟩⟩

/-- C2 witness: at the concrete node, `setup` issues exactly the one
expected rpc and resolves with the engine's response. -/
theorem browserNode_rpc_dispatch_witness :
    (node0.setup setupParams0).2 = [constructRpcRequest .chan_requestSetup setupParams0] ∧
    (node0.setup setupParams0).1 =
      .ok (.ok ({ channelAddress := "0xchan" } : SetupRpcResponse)) :=
  ⟨(browserNode_rpc_dispatch.1 node0 setupParams0).1,
   (browserNode_rpc_dispatch.1 node0 setupParams0).2.1 { channelAddress := "0xchan" } rfl⟩

/-- C1 counterexample: at a concrete node, `internalSetup` does not
resolve to a `Result` value at all — its promise rejects with the thrown
`Error("Method not implemented")` — refuting the claim that every
INodeService method of BrowserNode, including `internalSetup` and
`sendDepositTx`, resolves to a tagged success or typed failure. -/
theorem internalSetup_rejects_counterexample :
    (BrowserNode.internalSetup node0).1 = .error (.jsError "Method not implemented") ∧
    ¬∃ r, (BrowserNode.internalSetup node0).1 = .ok r := by
  refine ⟨rfl, ?_⟩
  rintro ⟨r, hr⟩
  exact Except.noConfusion hr

/-- C1 (amended): every public node-facing operation of BrowserNode
except `internalSetup` and `sendDepositTx` resolves, for every engine
behaviour and every input, to an explicit `Result.ok`/`Result.fail` value
and never rejects; `internalSetup` and `sendDepositTx` are the two
deliberately unimplemented methods and reject with
`Error("Method not implemented")` without reaching the engine. -/
theorem browserNode_operations_resolve :
    (∀ (node : BrowserNode) (p : CreateNodeParams), ∃ r, (node.createNode p).1 = .ok r) ∧
    (∀ (node : BrowserNode) (p : GetChannelStateByParticipantsParams),
      ∃ r, (node.getStateChannelByParticipants p).1 = .ok r) ∧
    (∀ (node : BrowserNode) (p : GetChannelStateParams),
      ∃ r, (node.getStateChannel p).1 = .ok r) ∧
    (∀ node : BrowserNode, ∃ r, (node.getStateChannels).1 = .ok r) ∧
    (∀ (node : BrowserNode) (p : GetTransferStateByRoutingIdParams),
      ∃ r, (node.getTransferByRoutingId p).1 = .ok r) ∧
    (∀ (node : BrowserNode) (p : GetTransferStatesByRoutingIdParams),
      ∃ r, (node.getTransfersByRoutingId p).1 = .ok r) ∧
    (∀ (node : BrowserNode) (p : GetTransferStateParams),
      ∃ r, (node.getTransfer p).1 = .ok r) ∧
    (∀ (node : BrowserNode) (p : GetActiveTransfersParams),
      ∃ r, (node.getActiveTransfers p).1 = .ok r) ∧
    (∀ (node : BrowserNode) (p : RequestSetupParams), ∃ r, (node.setup p).1 = .ok r) ∧
    (∀ (node : BrowserNode) (p : DepositParams), ∃ r, (node.reconcileDeposit p).1 = .ok r) ∧
    (∀ (node : BrowserNode) (p : RequestCollateralParams),
      ∃ r, (node.requestCollateral p).1 = .ok r) ∧
    (∀ (node : BrowserNode) (p : ConditionalTransferParams),
      ∃ r, (node.conditionalTransfer p).1 = .ok r) ∧
    (∀ (node : BrowserNode) (p : ResolveTransferParams),
      ∃ r, (node.resolveTransfer p).1 = .ok r) ∧
    (∀ (node : BrowserNode) (p : WithdrawParams), ∃ r, (node.withdraw p).1 = .ok r) ∧
    (∀ (node : BrowserNode) (p : DisputeChannelParams),
      ∃ r, (node.sendDisputeChannelTx p).1 = .ok r) ∧
    (∀ (node : BrowserNode) (p : DefundChannelParams),
      ∃ r, (node.sendDefundChannelTx p).1 = .ok r) ∧
    (∀ (node : BrowserNode) (p : DisputeTransferParams),
      ∃ r, (node.sendDisputeTransferTx p).1 = .ok r) ∧
    (∀ (node : BrowserNode) (p : DefundTransferParams),
      ∃ r, (node.sendDefundTransferTx p).1 = .ok r) ∧
    (∀ node : BrowserNode,
      (BrowserNode.internalSetup node).1 = .error (.jsError "Method not implemented") ∧
      (BrowserNode.internalSetup node).2 = []) ∧
    (∀ node : BrowserNode,
      (BrowserNode.sendDepositTx node).1 = .error (.jsError "Method not implemented.") ∧
      (BrowserNode.sendDepositTx node).2 = []) :=
  ⟨fun _node p => ⟨.fail (.node { reason := .MultinodeProhibitted, ctxParams := p }), rfl⟩,
   fun node _p => callEngine_resolves node _ _,
   fun node _p => callEngine_resolves node _ _,
   fun node => callEngine_resolves node _ _,
   fun node _p => callEngine_resolves node _ _,
   fun node _p => callEngine_resolves node _ _,
   fun node _p => callEngine_resolves node _ _,
   fun node _p => callEngine_resolves node _ _,
   fun node _p => callEngine_resolves node _ _,
   fun node _p => callEngine_resolves node _ _,
   fun node _p => callEngine_resolves node _ _,
   fun node _p => callEngine_resolves node _ _,
   fun node _p => callEngine_resolves node _ _,
   fun node _p => callEngine_resolves node _ _,
   fun node _p => callEngine_resolves node _ _,
   fun node _p => callEngine_resolves node _ _,
   fun node _p => callEngine_resolves node _ _,
   fun node _p => callEngine_resolves node _ _,
   fun _node => ⟨rfl, rfl⟩,
   fun _node => ⟨rfl, rfl⟩⟩

/- ### Nonce discipline of the spec-modelled state machine -/

theorem applyUpdate_ok_nonce (s s1 : ChannelState) (u : ChannelUpdate)
    (h : applyUpdate s u = .ok s1) : u.nonce = s.nonce + 1 ∧ s1.nonce = u.nonce := by
  unfold applyUpdate at h
  split at h
  case isTrue hn =>
    injection h with h1
    subst h1
    exact ⟨hn, rfl⟩
  case isFalse hn => cases h

theorem applyAll_chain_aux (us : List ChannelUpdate) :
    ∀ s s' : ChannelState, applyAll s us = .ok s' →
      List.Chain' (fun a b => b.nonce = a.nonce + 1) us ∧
      (∀ v, us.head? = some v → v.nonce = s.nonce + 1) := by
  induction us with
  | nil =>
    intro s s' _
    exact ⟨List.chain'_nil, fun v hv => by cases hv⟩
  | cons u rest ih =>
    intro s s' h
    unfold applyAll at h
    cases hu : applyUpdate s u with
    | error e => rw [hu] at h; cases h
    | ok s1 =>
      rw [hu] at h
      obtain ⟨hn, hs1⟩ := applyUpdate_ok_nonce s s1 u hu
      obtain ⟨hchain, hhead⟩ := ih s1 s' h
      refine ⟨?_, ?_⟩
      · cases rest with
        | nil => exact List.chain'_singleton u
        | cons v vs =>
          refine List.Chain'.cons ?_ hchain
          have hv := hhead v rfl
          rw [hv, hs1]
      · intro v hv
        injection hv with hv
        rw [← hv]
        exact hn

/-- C6: whenever a sequence of updates is applied on a channel, the nonce
of each applied update equals the nonce of the previous applied update
plus exactly one. -/
theorem applied_updates_nonce_chain (s s' : ChannelState) (us : List ChannelUpdate)
    (h : applyAll s us = .ok s') :
    List.Chain' (fun a b => b.nonce = a.nonce + 1) us :=
  (applyAll_chain_aux us s s' h).1

def nonceUpdate (n : Nat) : ChannelUpdate :=
  { utype := .Create, nonce := n, details := sampleDetails }

/-- C6 witness: a concrete two-update sequence applied on a concrete
channel state. -/
theorem applied_updates_nonce_chain_witness :
    List.Chain' (fun (a b : ChannelUpdate) => b.nonce = a.nonce + 1)
      [nonceUpdate 8, nonceUpdate 9] :=
  applied_updates_nonce_chain (sampleChannel .Setup) _ [nonceUpdate 8, nonceUpdate 9] rfl

/- ### Forwarding atomicity of the spec-modelled router lifecycle -/

/-- C5: in every reachable state of a routed payment, the router has
never paid out on the outbound leg while the inbound leg is cancelled or
was never created, unless its collateral explicitly absorbed the loss on
expiry; it never collects the inbound leg without the outbound leg being
resolved; and whenever one leg has settled, the other is no longer kept
active on its own (legs settle consistently). -/
theorem router_forwarding_atomicity (s : RoutedPayment) (h : RouterReachable s) :
    ForwardingConsistent s := by
  induction h with
  | refl =>
    unfold ForwardingConsistent RoutedPayment.initial
    decide
  | tail _ hstep _ih =>
    cases hstep <;> (unfold ForwardingConsistent; decide)

/-- C5 witness: the fully forwarded-and-resolved payment is reachable and
consistent. -/
theorem router_forwarding_atomicity_witness :
    ForwardingConsistent { inbound := .resolved, outbound := .resolved, absorbed := false } :=
  router_forwarding_atomicity _
    (Relation.ReflTransGen.tail
      (Relation.ReflTransGen.tail
        (Relation.ReflTransGen.tail
          (Relation.ReflTransGen.tail Relation.ReflTransGen.refl RouterStep.createInbound)
          RouterStep.forward)
        RouterStep.resolveOutbound)
      RouterStep.mirrorResolve)

/- ### waitFor: hard timeout, matched payload or "not observed" -/

/-- C7: for every event type, timeout and filter, `waitFor` resolves:
either no event of that type within the timeout passes the filter and it
resolves with `none` ("not observed"), or it resolves with the payload of
an event that was observed within the timeout and passes the filter. -/
theorem waitFor_hard_timeout (node : BrowserNode) (event : String) (timeout : Nat)
    (filter : String → Bool) :
    (node.waitFor event timeout filter = none ∧
      ∀ e ∈ node.engine.events event, e.time ≤ timeout → filter e.payload = false) ∨
    (∃ e ∈ node.engine.events event, e.time ≤ timeout ∧ filter e.payload = true ∧
      node.waitFor event timeout filter = some e.payload) := by
  unfold BrowserNode.waitFor Engine.waitFor
  cases hf : (node.engine.events event).filter
      (fun e => decide (e.time ≤ timeout) && filter e.payload) with
  | nil =>
    left
    refine ⟨rfl, ?_⟩
    intro e he ht
    have := List.filter_eq_nil_iff.mp hf e he
    simpa [ht] using this
  | cons x xs =>
    right
    have hx : x ∈ (node.engine.events event).filter
        (fun e => decide (e.time ≤ timeout) && filter e.payload) := by
      rw [hf]; exact List.mem_cons_self x xs
    obtain ⟨hmem, hp⟩ := List.mem_filter.mp hx
    have hp' : x.time ≤ timeout ∧ filter x.payload = true := by
      simpa using hp
    exact ⟨x, hmem, hp'.1, hp'.2, rfl⟩

/- ### LibERC20 wrapper behaviour -/

/-- C10: `wrapCall` reverts with `"LibERC20: NO_CODE"` when the asset is
not a contract, reverts (bubbling the return data) when the underlying
token call fails, and otherwise returns `true` exactly when the call's
return data is empty or ABI-decodes to the boolean `true`; `approve`,
`transferFrom` and `transfer` are this wrapper applied to the
corresponding ERC20 call encoding. -/
theorem libERC20_wrapCall_spec (env : EvmEnv) (assetId : Nat) (callData : CallData)
    (gas : Nat) :
    (env.isContract assetId = false →
      LibERC20.wrapCallWithGas env assetId callData gas =
        .error (.message "LibERC20: NO_CODE")) ∧
    (env.isContract assetId = true → (env.call assetId callData gas).1 = false →
      LibERC20.wrapCallWithGas env assetId callData gas =
        .error (.bubbled (env.call assetId callData gas).2)) ∧
    (env.isContract assetId = true → (env.call assetId callData gas).1 = true →
      (LibERC20.wrapCallWithGas env assetId callData gas = .ok true ↔
        ((env.call assetId callData gas).2 = [] ∨
          abiDecodeBool (env.call assetId callData gas).2 = .ok true))) ∧
    (∀ spender amount : Nat, LibERC20.approve env assetId spender amount =
      LibERC20.wrapCall env assetId (.approveCall spender amount)) ∧
    (∀ sender recipient amount : Nat,
      LibERC20.transferFrom env assetId sender recipient amount =
        LibERC20.wrapCall env assetId (.transferFromCall sender recipient amount)) ∧
    (∀ recipient amount : Nat, LibERC20.transfer env assetId recipient amount =
      LibERC20.wrapCallWithGas env assetId (.transferCall recipient amount) env.gasleft) := by
  refine ⟨?_, ?_, ?_, fun _ _ => rfl, fun _ _ _ => rfl, fun _ _ => rfl⟩
  · intro hc
    unfold LibERC20.wrapCallWithGas
    rw [hc]
    rfl
  · intro hc hfail
    unfold LibERC20.wrapCallWithGas
    rw [hc]
    rcases hcall : env.call assetId callData gas with ⟨su, rd⟩
    rw [hcall] at hfail
    simp only at hfail
    rw [hfail]
    rfl
  · intro hc hsu
    unfold LibERC20.wrapCallWithGas
    rw [hc]
    rcases hcall : env.call assetId callData gas with ⟨su, rd⟩
    rw [hcall] at hsu
    simp only at hsu
    rw [hsu]
    simp only [LibUtils.revertIfCallFailed, if_true]
    rcases hrd : rd with _ | ⟨b, bs⟩
    · simp
    · rw [← hrd]
      have hlen : rd.length ≠ 0 := by rw [hrd]; simp
      simp only [if_neg hlen]
      constructor
      · intro hdec
        exact Or.inr hdec
      · intro hor
        rcases hor with hnil | hdec
        · exact absurd (by rw [hnil]; rfl) hlen
        · exact hdec
  
/-- A concrete EVM environment: every address is a contract and every
call succeeds with empty return data. -/
def env0 : EvmEnv :=
  { isContract := fun _ => true,
    call := fun _ _ _ => (true, []),
    gasleft := 100000 }

/-- C10 witness: in the concrete environment a `transfer` returns true
(the call succeeded with empty return data). -/
theorem libERC20_wrapCall_spec_witness :
    LibERC20.transfer env0 1 2 3 = .ok true := by
  have h := libERC20_wrapCall_spec env0 1 (CallData.transferCall 2 3) env0.gasleft
  have htr := h.2.2.2.2.2 2 3
  rw [htr]
  exact (h.2.2.1 rfl rfl).mpr (Or.inl rfl)
